import Mathlib

/-!
Verification of the Blitz Week registration backend.

This file shallowly embeds the registration data model, the register /
lookup / admin operations and the statistics aggregation of the backend
(`src/models/Registration.js`, `src/controllers/registrationController.js`,
`src/controllers/statsController.js`, `src/routes/registrationRoutes.js`)
and proves the behavioural claims about them.

Modelling conventions:
* a Mongo collection is a `List Registration` in insertion order;
  `findOne` is `List.find?`, `countDocuments` is a filtered length,
  an insert appends, and the store rejects an insert that collides with
  one of the three declared unique indexes (ldapId, rollNumber,
  registrationNumber), reporting the violated field (the E11000 signal);
* timestamps are naturals (seconds); the calendar year used by the
  registration-number generator is passed explicitly;
* `undefined` / absent values are `Option.none`; the `toJSON` transform
  that deletes the audit fields is `scrub`;
* JS floating-point percentages are modelled over `ℚ`, with `Option ℚ`
  whose `none` stands for the NaN / Infinity a division by zero emits;
  `toFixed(2)` is rounding to two decimals (`round2`).
-/

namespace Blitzweek

/-- A Registration document, after the fields of
`src/models/Registration.js`.  `registrationNumber` is `none` until the
pre-save hook assigns it; the audit fields are `none` once scrubbed. -/
structure Registration where
  name : String
  ldapId : String
  rollNumber : String
  branch : String
  year : String
  interestedEvents : List String
  phoneNumber : Option String
  registrationDate : Nat
  registrationNumber : Option String
  ipAddress : Option String
  userAgent : Option String
  status : String
  deriving DecidableEq

/-- A Mongo collection of registrations, in insertion order. -/
abbrev Store := List Registration

/-- The request body of POST /api/register, as the controller destructures
it.  `interestedEvents` is the submitted list (the controller wraps a
scalar submission into a one-element array, so a scalar is a singleton
list; a missing field is the empty list, which fails validation exactly
as `undefined` does). -/
structure RawRequest where
  name : String
  ldapId : String
  rollNumber : String
  branch : String
  year : String
  interestedEvents : List String
  phoneNumber : Option String
  deriving DecidableEq

/-- The branch enumeration of the route validator (`isIn` list in
`src/routes/registrationRoutes.js`). -/
def branches : List String :=
  ["Aerospace Engineering", "Chemical Engineering", "Civil Engineering",
   "Computer Science and Engineering", "Electrical Engineering",
   "Engineering Physics", "Environmental Science and Engineering",
   "Mechanical Engineering",
   "Metallurgical Engineering and Materials Science",
   "Biosciences and Bioengineering",
   "Chemistry", "Earth Sciences", "Mathematics", "Physics",
   "Climate Studies", "Educational Technology",
   "Energy Science and Engineering", "Systems and Control Engineering",
   "Technology and Development", "Economics", "Other"]

/-- The year enumeration of the route validator. -/
def years : List String :=
  ["1st Year", "2nd Year", "3rd Year", "4th Year", "5th Year", "MTech",
   "PhD", "Other"]

/-- The event enumeration of the route validator. -/
def validEvents : List String := ["ScaleUp Blitz", "ScaleUp Ignite", "Both"]

/-- JS `String.prototype.toLowerCase` on the ASCII strings of this
domain: map each character to lower case. -/
def toLowerStr (s : String) : String :=
  String.mk (s.data.map Char.toLower)

/-- JS `String.prototype.toUpperCase` on the ASCII strings of this
domain. -/
def toUpperStr (s : String) : String :=
  String.mk (s.data.map Char.toUpper)

/-- JS `String.prototype.trim`: strip leading and trailing
whitespace. -/
def trimStr (s : String) : String :=
  String.mk
    (((s.data.dropWhile Char.isWhitespace).reverse.dropWhile
      Char.isWhitespace).reverse)

/-- JS `String.prototype.endsWith`. -/
def endsWithStr (s suffix : String) : Bool :=
  suffix.data.isSuffixOf s.data

/-- JS `String.prototype.includes` for a single character (the `@`
routing test). -/
def containsChar (s : String) (c : Char) : Bool :=
  s.data.contains c

/-- Lexicographic comparison of character lists (the store's ordering
on string values). -/
def lexLe : List Char → List Char → Bool
  | [], _ => true
  | _ :: _, [] => false
  | x :: xs, y :: ys => if x = y then lexLe xs ys else decide (x < y)

/-- Lexicographic comparison of strings. -/
def strLe (a b : String) : Bool :=
  lexLe a.data b.data

/-- Characters allowed in the local part of the Mongoose ldapId regex
`[a-zA-Z0-9._%+-]`. -/
def isEmailLocalChar (c : Char) : Bool :=
  c.isAlphanum || c = '.' || c = '_' || c = '%' || c = '+' || c = '-'

/-- The anchored Mongoose ldapId validator regex
`[a-zA-Z0-9._%+-]+@iitb.ac.in` (whole-string match). -/
def validIITBEmailFull (s : String) : Bool :=
  endsWithStr s "@iitb.ac.in" &&
    (let locPart := s.dropRight 11
     locPart ≠ "" && locPart.data.all isEmailLocalChar)

/-- The route validator check on ldapId: a case-insensitive suffix match
of the regex `@iitb.ac.in$` (the `matches` call is unanchored at the
start and has the `i` flag). -/
def iitbEmailSuffix (s : String) : Bool :=
  endsWithStr (toLowerStr s) "@iitb.ac.in"

/-- The express-validator chain of `src/routes/registrationRoutes.js`:
each failing validator contributes its message (express-validator runs
every validator of a chain and collects every failure).  Validators see
the value after the preceding sanitizers, so the trimmed value where a
`trim` sanitizer precedes them.  `notEmpty` on the events array follows
the library's string coercion: an array is coerced by joining with
commas, so `[]` (and a missing field) coerce to the empty string and
fail. -/
def validateRegistration (q : RawRequest) : List String :=
  (if trimStr q.name = "" then ["Name is required"] else []) ++
  (if trimStr q.ldapId = "" then ["LDAP ID is required"] else []) ++
  (if iitbEmailSuffix (trimStr q.ldapId) then []
   else ["Must be a valid IITB email address"]) ++
  (if trimStr q.rollNumber = "" then ["Roll Number is required"] else []) ++
  (if q.branch = "" then ["Branch is required"] else []) ++
  (if branches.contains q.branch then [] else ["Invalid branch"]) ++
  (if q.year = "" then ["Year is required"] else []) ++
  (if years.contains q.year then [] else ["Invalid year"]) ++
  (if String.intercalate "," q.interestedEvents = ""
   then ["Please select at least one event"] else []) ++
  (if q.interestedEvents.all (fun e => validEvents.contains e) then []
   else ["Invalid event selection"])

/-- The sanitizers of the validation chain, as the controller receives
the body: name trimmed; ldapId trimmed and lower-cased (`normalizeEmail`
lower-cases the address); rollNumber trimmed and upper-cased; phone
trimmed. -/
def sanitize (q : RawRequest) : RawRequest :=
  { q with
    name := trimStr q.name
    ldapId := toLowerStr (trimStr q.ldapId)
    rollNumber := toUpperStr (trimStr q.rollNumber)
    phoneNumber := q.phoneNumber.map (fun p => trimStr p) }

/-- `Registration.checkExistingRegistration` of the model: the first
record whose stored ldapId equals the lower-cased email or whose stored
rollNumber equals the upper-cased roll number. -/
def checkExistingRegistration (s : Store) (ldapId rollNumber : String) :
    Option Registration :=
  s.find? (fun r =>
    r.ldapId == toLowerStr ldapId || r.rollNumber == toUpperStr rollNumber)

/-- JS `String.prototype.padStart`: pad on the left with `c` up to
length `len`; a longer string is returned unchanged. -/
def padStart (s : String) (len : Nat) (c : Char) : String :=
  String.mk (List.replicate (len - s.length) c) ++ s

/-- The registration-number generator of the pre-save hook:
`BW` + current year + `String(count + 1).padStart(4, '0')` where `count`
is the total number of documents at the moment of generation. -/
def genRegistrationNumber (count year : Nat) : String :=
  "BW" ++ toString year ++ padStart (toString (count + 1)) 4 '0'

/-- The pre-save hook of the schema: assign a number derived from the
current document count if and only if none is set yet. -/
def preSaveHook (s : Store) (year : Nat) (r : Registration) : Registration :=
  match r.registrationNumber with
  | none =>
      let n := genRegistrationNumber s.length year
      { r with registrationNumber := some n }
  | some _ => r

/-- Mongoose document validation of the live schema (which declares
`required` on name / ldapId / rollNumber / branch / year /
interestedEvents, the ldapId format validator, no rollNumber format
validator, and the status enum; `required` on an array demands a
non-empty array).  One message per failing path, as Mongoose reports. -/
def mongooseValidate (r : Registration) : List String :=
  (if r.name = "" then ["Name is required"] else []) ++
  (if r.ldapId = "" then ["LDAP ID is required"]
   else if validIITBEmailFull r.ldapId then []
   else ["Please enter a valid IITB email address"]) ++
  (if r.rollNumber = "" then ["Roll Number is required"] else []) ++
  (if r.branch = "" then ["Branch is required"] else []) ++
  (if r.year = "" then ["Year is required"] else []) ++
  (if r.interestedEvents = [] then ["Please select at least one event"]
   else []) ++
  (if ["pending", "confirmed", "cancelled"].contains r.status then []
   else ["Invalid status value"])

/-- The unique-index check the store performs on insert: the first
declared unique index (ldapId, rollNumber, registrationNumber) that the
new document collides with, i.e. the field of the E11000 error's
`keyPattern`; `none` when the insert is accepted. -/
def dupKeyField (s : Store) (r : Registration) : Option String :=
  if s.any (fun x => x.ldapId == r.ldapId) then some "ldapId"
  else if s.any (fun x => x.rollNumber == r.rollNumber) then
    some "rollNumber"
  else if s.any (fun x => x.registrationNumber == r.registrationNumber)
    then some "registrationNumber"
  else none

/-- The controller's mapping of an E11000 field to a user-facing
message: `This ${field === 'ldapId' ? 'LDAP ID' : 'Roll Number'} is
already registered`. -/
def dupKeyMessage (field : String) : String :=
  if field = "ldapId" then "This LDAP ID is already registered"
  else "This Roll Number is already registered"

/-- The success payload of POST /api/register (the `data` object the
controller builds field by field). -/
structure RegisterSuccess where
  registrationNumber : String
  name : String
  ldapId : String
  rollNumber : String
  events : List String
  registrationDate : Nat
  deriving DecidableEq

/-- The possible JSON responses of POST /api/register, one constructor
per distinct response shape of the controller. -/
inductive RegisterResult where
  /-- 400: express-validator failures (the `errors.array()` payload). -/
  | validationFailed (errors : List String) : RegisterResult
  /-- 409 from the pre-check: carries the existing record's
  registrationNumber and registrationDate. -/
  | alreadyRegistered (registrationNumber : String)
      (registrationDate : Nat) : RegisterResult
  /-- 409 from the E11000 catch branch: carries only a message. -/
  | duplicateKey (message : String) : RegisterResult
  /-- 400 from a Mongoose ValidationError thrown by save. -/
  | schemaValidationFailed (errors : List String) : RegisterResult
  /-- 201 with the success payload. -/
  | created (data : RegisterSuccess) : RegisterResult
  deriving DecidableEq

/-- The HTTP status code of each register response shape. -/
def RegisterResult.httpStatus : RegisterResult → Nat
  | .validationFailed _ => 400
  | .alreadyRegistered _ _ => 409
  | .duplicateKey _ => 409
  | .schemaValidationFailed _ => 400
  | .created _ => 201

/-- Whether a register response carries the existing record's
registrationNumber and registrationDate (only the pre-check duplicate
response does). -/
def RegisterResult.carriesExistingRecord : RegisterResult → Bool
  | .alreadyRegistered _ _ => true
  | _ => false

/-- The document the controller constructs before saving. -/
def buildRecord (q : RawRequest) (now : Nat) (ip ua : Option String) :
    Registration :=
  { name := q.name
    ldapId := toLowerStr q.ldapId
    rollNumber := toUpperStr q.rollNumber
    branch := q.branch
    year := q.year
    interestedEvents := q.interestedEvents
    phoneNumber := q.phoneNumber
    registrationDate := now
    registrationNumber := none
    ipAddress := ip
    userAgent := ua
    status := "confirmed" }

/-- `registration.save()` as the controller observes it: Mongoose
validation first (pre-save hooks run only after validation), then the
pre-save hook assigns the number, then the insert, which the store
rejects with an E11000 duplicate-key signal if a unique index is
violated.  The catch block of the controller maps a ValidationError to
400 and an E11000 to 409 with the field-derived message. -/
def saveRegistration (s : Store) (year : Nat) (r : Registration) :
    RegisterResult × Store :=
  let verrs := mongooseValidate r
  if verrs.isEmpty then
    let r := preSaveHook s year r
    match dupKeyField s r with
    | some f => (.duplicateKey (dupKeyMessage f), s)
    | none =>
        (.created
          { registrationNumber := r.registrationNumber.getD ""
            name := r.name
            ldapId := r.ldapId
            rollNumber := r.rollNumber
            events := r.interestedEvents
            registrationDate := r.registrationDate },
         s ++ [r])
  else (.schemaValidationFailed verrs, s)

/-- The register workflow of the controller: express validation, the
duplicate pre-check, record construction, save. -/
def register (s : Store) (q : RawRequest) (year now : Nat)
    (ip ua : Option String) : RegisterResult × Store :=
  let errs := validateRegistration q
  if errs.isEmpty then
    let q := sanitize q
    match checkExistingRegistration s q.ldapId q.rollNumber with
    | some e =>
        (.alreadyRegistered (e.registrationNumber.getD "")
          e.registrationDate, s)
    | none => saveRegistration s year (buildRecord q now ip ua)
  else (.validationFailed errs, s)

/-- The `toJSON` transform of the schema, which deletes the audit
fields `ipAddress` and `userAgent` before a document is serialized into
a response (the `select('-ipAddress -userAgent')` projections have the
same effect on the modelled fields). -/
def scrub (r : Registration) : Registration :=
  { r with ipAddress := none, userAgent := none }

/-- Update the first record satisfying `p` (the effect of
`findOneAndUpdate` on the collection). -/
def updateFirst (p : Registration → Bool) (f : Registration → Registration) :
    Store → Store
  | [] => []
  | r :: t => if p r then f r :: t else r :: updateFirst p f t

/-- Remove the first record satisfying `p` (the effect of
`findOneAndDelete` on the collection). -/
def removeFirst (p : Registration → Bool) : Store → Store
  | [] => []
  | r :: t => if p r then t else r :: removeFirst p t

/-- The JSON responses of PUT /api/registration/:nr/status. -/
inductive UpdateResult where
  /-- 400: the requested status is not one of the three enumerated
  values. -/
  | invalidStatus : UpdateResult
  /-- 404: no record carries the given registration number. -/
  | notFound : UpdateResult
  /-- 200 with the updated record (serialized through the scrubbing
  `toJSON` transform). -/
  | updated (data : Registration) : UpdateResult
  deriving DecidableEq

/-- The HTTP status code of each update-status response. -/
def UpdateResult.httpStatus : UpdateResult → Nat
  | .invalidStatus => 400
  | .notFound => 404
  | .updated _ => 200

/-- `updateRegistrationStatus` of the controller: reject a status
outside the enumeration before touching the store, else update the
first matching record and return it. -/
def updateRegistrationStatus (s : Store) (num status : String) :
    UpdateResult × Store :=
  if ["pending", "confirmed", "cancelled"].contains status then
    match s.find? (fun r => r.registrationNumber == some num) with
    | none => (.notFound, s)
    | some r =>
        (.updated (scrub { r with status := status }),
         updateFirst (fun r => r.registrationNumber == some num)
           (fun r => { r with status := status }) s)
  else (.invalidStatus, s)

/-- The JSON responses of DELETE /api/registration/:nr. -/
inductive DeleteResult where
  | notFound : DeleteResult
  | deleted : DeleteResult
  deriving DecidableEq

/-- `deleteRegistration` of the controller. -/
def deleteRegistration (s : Store) (num : String) : DeleteResult × Store :=
  match s.find? (fun r => r.registrationNumber == some num) with
  | none => (.notFound, s)
  | some _ =>
      (.deleted, removeFirst (fun r => r.registrationNumber == some num) s)

/-- The JSON responses of GET /api/check-registration/:identifier. -/
inductive CheckResult where
  /-- 400: empty identifier. -/
  | noIdentifier : CheckResult
  /-- 404: no matching record. -/
  | notFound : CheckResult
  /-- 200 with the summary fields the controller lists. -/
  | found (registrationNumber : String) (name : String)
      (events : List String) (registrationDate : Nat) : CheckResult
  deriving DecidableEq

/-- `checkRegistration` of the controller: an identifier containing `@`
is looked up as a lower-cased ldapId, anything else as an upper-cased
roll number. -/
def checkRegistration (s : Store) (identifier : String) : CheckResult :=
  if identifier = "" then .noIdentifier
  else
    let m :=
      if containsChar identifier '@' then
        s.find? (fun r => r.ldapId == toLowerStr identifier)
      else
        s.find? (fun r => r.rollNumber == toUpperStr identifier)
    match m with
    | none => .notFound
    | some r =>
        .found (r.registrationNumber.getD "") r.name r.interestedEvents
          r.registrationDate

/-- `getRegistrationByNumber` of the controller: the matching record
with the audit fields projected away, or 404. -/
def getRegistrationByNumber (s : Store) (num : String) :
    Option Registration :=
  (s.find? (fun r => r.registrationNumber == some num)).map scrub

/-- A BSON value a list query can sort on: missing sorts below numbers,
numbers below strings, as in the store's type bracketing. -/
inductive SortVal where
  | missing : SortVal
  | num (n : Nat) : SortVal
  | str (s : String) : SortVal
  deriving DecidableEq

/-- The type-bracket rank of a sortable value. -/
def SortVal.rank : SortVal → Nat
  | .missing => 0
  | .num _ => 1
  | .str _ => 2

/-- The store's ordering on sortable values. -/
def sortValLe (a b : SortVal) : Bool :=
  match a, b with
  | .missing, _ => true
  | .num _, .missing => false
  | .num n, .num m => n ≤ m
  | .num _, .str _ => true
  | .str _, .missing => false
  | .str _, .num _ => false
  | .str x, .str y => strLe x y

/-- The value of a named document field, as the dynamic
`sort({ [sortBy]: ... })` reads it; an unknown field name is missing on
every document. -/
def getSortValue (r : Registration) (field : String) : SortVal :=
  if field = "name" then .str r.name
  else if field = "ldapId" then .str r.ldapId
  else if field = "rollNumber" then .str r.rollNumber
  else if field = "branch" then .str r.branch
  else if field = "year" then .str r.year
  else if field = "status" then .str r.status
  else if field = "registrationNumber" then
    (match r.registrationNumber with
     | some v => .str v
     | none => .missing)
  else if field = "registrationDate" then .num r.registrationDate
  else if field = "ipAddress" then
    (match r.ipAddress with
     | some v => .str v
     | none => .missing)
  else if field = "userAgent" then
    (match r.userAgent with
     | some v => .str v
     | none => .missing)
  else .missing

/-- Stable insertion into a sorted list, keeping earlier elements first
among ties. -/
def insertSorted (le : Registration → Registration → Bool)
    (a : Registration) : List Registration → List Registration
  | [] => [a]
  | b :: t => if le a b then a :: b :: t else b :: insertSorted le a t

/-- A stable sort of the collection under `le` (the deterministic model
of the store's sort stage). -/
def sortStore (le : Registration → Registration → Bool) (l : Store) :
    Store :=
  l.foldr (insertSorted le) []

/-- The comparison the list endpoint sorts with:
`{[sortBy]: order === 'desc' ? -1 : 1}`. -/
def listSortLe (sortBy ord : String) (a b : Registration) : Bool :=
  if ord = "desc" then sortValLe (getSortValue b sortBy) (getSortValue a sortBy)
  else sortValLe (getSortValue a sortBy) (getSortValue b sortBy)

/-- The query parameters of GET /api/registrations, after the
controller's defaults (`page = 1`, `limit = 50`,
`sortBy = 'registrationDate'`, `order = 'desc'`). -/
structure ListQuery where
  page : Nat := 1
  limit : Nat := 50
  event : Option String := none
  branch : Option String := none
  year : Option String := none
  sortBy : String := "registrationDate"
  ord : String := "desc"
  deriving DecidableEq

/-- The filter the list endpoint builds: an event filter matches
documents whose array contains the value; branch and year match
exactly. -/
def matchesListQuery (q : ListQuery) (r : Registration) : Bool :=
  (match q.event with
   | none => true
   | some e => r.interestedEvents.contains e) &&
  (match q.branch with
   | none => true
   | some b => r.branch == b) &&
  (match q.year with
   | none => true
   | some y => r.year == y)

/-- The JSON response of GET /api/registrations: the page of records
(audit fields projected away) plus the pagination block.  `totalPages`
is `Math.ceil(totalCount / limit)` (for a zero limit JS would yield a
non-finite value; the model returns 0, a case no claim touches). -/
structure ListResponse where
  data : List Registration
  currentPage : Nat
  totalPages : Nat
  totalCount : Nat
  limit : Nat
  deriving DecidableEq

/-- `getAllRegistrations` of the controller: filter, count, sort, skip
`(page-1)*limit`, take `limit`, project the audit fields away. -/
def getAllRegistrations (s : Store) (q : ListQuery) : ListResponse :=
  let filtered := s.filter (matchesListQuery q)
  let totalCount := filtered.length
  let sorted := sortStore (listSortLe q.sortBy q.ord) filtered
  let pageItems := (sorted.drop ((q.page - 1) * q.limit)).take q.limit
  { data := pageItems.map scrub
    currentPage := q.page
    totalPages := if q.limit = 0 then 0
      else (totalCount + q.limit - 1) / q.limit
    totalCount := totalCount
    limit := q.limit }

/-- One flattened row of GET /api/registrations/export (the keys of the
`csvData` objects; the locale-formatted date string is kept as the
underlying timestamp). -/
structure ExportRow where
  registrationNumber : String
  name : String
  ldapId : String
  rollNumber : String
  branch : String
  year : String
  events : String
  phone : String
  registrationDate : Nat
  status : String
  deriving DecidableEq

/-- The flattened export row of one record: events joined with a comma
and space, a falsy phone replaced by N/A. -/
def exportRow (r : Registration) : ExportRow :=
  { registrationNumber := r.registrationNumber.getD ""
    name := r.name
    ldapId := r.ldapId
    rollNumber := r.rollNumber
    branch := r.branch
    year := r.year
    events := String.intercalate ", " r.interestedEvents
    phone :=
      match r.phoneNumber with
      | some p => if p = "" then "N/A" else p
      | none => "N/A"
    registrationDate := r.registrationDate
    status := r.status }

/-- `exportRegistrations` of the controller: every record sorted by
registration date descending, flattened, with the row count. -/
def exportRegistrations (s : Store) : List ExportRow × Nat :=
  let sorted :=
    sortStore (fun a b => b.registrationDate ≤ a.registrationDate) s
  let rows := sorted.map exportRow
  (rows, rows.length)

/-- The confirmed slice of the store: every statistics query matches
`{ status: 'confirmed' }`. -/
def confirmedOnly (s : Store) : Store :=
  s.filter (fun r => r.status == "confirmed")

/-- The `$unwind`-ed event occurrences of the confirmed records. -/
def eventOccurrences (s : Store) : List String :=
  (confirmedOnly s).flatMap (fun r => r.interestedEvents)

/-- Rounding to two decimals, modelling `toFixed(2)` on the
non-negative percentage values the aggregator produces. -/
def round2 (q : ℚ) : ℚ :=
  (round (q * 100) : ℤ) / 100

/-- The percentage the aggregator computes:
`(count / total) * 100` followed by `toFixed(2)`.  `none` models the
non-finite value JS division by a zero total would emit. -/
def pctOf (count total : Nat) : Option ℚ :=
  if total = 0 then none
  else some (round2 ((count : ℚ) / (total : ℚ) * 100))

/-- One entry of a grouped distribution (event, branch or year):
the group key, its count, and the percentage field. -/
structure StatEntry where
  key : String
  count : Nat
  percentage : Option ℚ
  deriving DecidableEq

/-- The grouped entries of a list of keys: one entry per distinct key
with the number of occurrences and its percentage of `total`.  (The
aggregation's `$sort` stages only reorder these entries; the claims are
about each entry's fields, so the model keeps the group order.) -/
def entriesOf (l : List String) (total : Nat) : List StatEntry :=
  l.dedup.map (fun k => ⟨k, l.count k, pctOf (l.count k) total⟩)

/-- The projection of one recent registration in the stats payload
(the `select` list of `recentRegistrations`). -/
structure RecentReg where
  name : String
  rollNumber : String
  branch : String
  interestedEvents : List String
  registrationDate : Nat
  registrationNumber : String
  deriving DecidableEq

/-- Project a record to its recent-registration summary. -/
def recentOf (r : Registration) : RecentReg :=
  { name := r.name
    rollNumber := r.rollNumber
    branch := r.branch
    interestedEvents := r.interestedEvents
    registrationDate := r.registrationDate
    registrationNumber := r.registrationNumber.getD "" }

/-- The number of confirmed records whose event array contains the
combined Both value. -/
def bothEventsCount (s : Store) : Nat :=
  (confirmedOnly s).countP (fun r => r.interestedEvents.contains "Both")

/-- The data object of GET /api/stats (the fields the claims touch;
the daily and hourly buckets keep the day index and hour as naturals in
place of the formatted strings). -/
structure StatsData where
  totalRegistrations : Nat
  bothEventsPercentage : Option ℚ
  events : List StatEntry
  branchesDist : List StatEntry
  yearsDist : List StatEntry
  daily : List (Nat × Nat)
  hourly : List (Nat × Nat)
  recent : List RecentReg
  deriving DecidableEq

/-- `getStats` of the stats controller: total confirmed count; event /
branch / year distributions with percentage fields; the 7-day daily
trend and the hour-of-day histogram; the ten most recent confirmed
registrations; and the guarded both-events percentage
(`total > 0 ? ((both / total) * 100).toFixed(2) : 0`). -/
def getStats (s : Store) (now : Nat) : StatsData :=
  let confirmed := confirmedOnly s
  let total := confirmed.length
  let dayKeys :=
    (confirmed.filter
      (fun r => now - 7 * 86400 ≤ r.registrationDate)).map
      (fun r => r.registrationDate / 86400)
  let hourKeys := confirmed.map (fun r => r.registrationDate / 3600 % 24)
  { totalRegistrations := total
    bothEventsPercentage :=
      if 0 < total then
        some (round2 ((bothEventsCount s : ℚ) / (total : ℚ) * 100))
      else some 0
    events := entriesOf (eventOccurrences s) total
    branchesDist := entriesOf (confirmed.map (fun r => r.branch)) total
    yearsDist := entriesOf (confirmed.map (fun r => r.year)) total
    daily := dayKeys.dedup.map (fun d => (d, dayKeys.count d))
    hourly := hourKeys.dedup.map (fun h => (h, hourKeys.count h))
    recent :=
      ((sortStore (fun a b => b.registrationDate ≤ a.registrationDate)
        confirmed).take 10).map recentOf }

/-- The data object of GET /api/stats/live-count. -/
structure LiveCounts where
  total : Nat
  blitz : Nat
  ignite : Nat
  both : Nat
  deriving DecidableEq

/-- `getLiveCount` of the stats controller. -/
def getLiveCount (s : Store) : LiveCounts :=
  { total := (confirmedOnly s).length
    blitz := (eventOccurrences s).count "ScaleUp Blitz"
    ignite := (eventOccurrences s).count "ScaleUp Ignite"
    both := (eventOccurrences s).count "Both" }

/-- The JSON responses of GET /api/stats/event/:eventName. -/
inductive EventStatsResult where
  /-- 400: an event name outside the enumeration. -/
  | invalidEvent : EventStatsResult
  /-- 200 with the branch and year breakdowns of the named event. -/
  | ok (event : String) (totalRegistrations : Nat)
      (branchDistribution : List (String × Nat))
      (yearDistribution : List (String × Nat)) : EventStatsResult
  deriving DecidableEq

/-- `getEventStats` of the stats controller: reject unknown event
names, else count the confirmed registrations of the event by branch
and by year (the controller's final sorts only reorder the pairs; the
model keeps first-occurrence order). -/
def getEventStats (s : Store) (eventName : String) : EventStatsResult :=
  if validEvents.contains eventName then
    let regs :=
      (confirmedOnly s).filter
        (fun r => r.interestedEvents.contains eventName)
    let branchKeys := regs.map (fun r => r.branch)
    let yearKeys := regs.map (fun r => r.year)
    .ok eventName regs.length
      (branchKeys.dedup.map (fun b => (b, branchKeys.count b)))
      (yearKeys.dedup.map (fun y => (y, yearKeys.count y)))
  else .invalidEvent

/-- The stores reachable from an empty collection through the write
operations of the controller (register, status update, delete). -/
inductive Reachable : Store → Prop where
  | empty : Reachable []
  | register (s : Store) (q : RawRequest) (year now : Nat)
      (ip ua : Option String) :
      Reachable s → Reachable (register s q year now ip ua).2
  | update (s : Store) (num st : String) :
      Reachable s → Reachable (updateRegistrationStatus s num st).2
  | delete (s : Store) (num : String) :
      Reachable s → Reachable (deleteRegistration s num).2

/-- Two stores agree on everything except the audit fields of their
records. -/
def AuditEquiv (s t : Store) : Prop :=
  s.map scrub = t.map scrub

/-- Modelled from the spec: the structural roll-number pattern the spec
describes ("2 digits, 1 letter, 4 to 5 digits"), which no code under
src enforces (the route validator chain keeps only the non-empty check
for rollNumber and the live schema declares no rollNumber format
validator). -/
def rollNumberPatternSpec (s : String) : Bool :=
  match s.toList with
  | d1 :: d2 :: l :: rest =>
      d1.isDigit && d2.isDigit && l.isAlpha &&
        rest.all Char.isDigit && decide (4 ≤ rest.length) &&
        decide (rest.length ≤ 5)
  | _ => false

/-- Sample request: the valid candidate of the spec's scenario. -/
def aliceReq : RawRequest :=
  { name := "Alice"
    ldapId := "alice@iitb.ac.in"
    rollNumber := "21b1234"
    branch := "Computer Science and Engineering"
    year := "3rd Year"
    interestedEvents := ["ScaleUp Blitz"]
    phoneNumber := none }

/-- The record the store holds after Alice registers first into an
empty store (registration date 100, year 2025). -/
def aliceStored : Registration :=
  { name := "Alice"
    ldapId := "alice@iitb.ac.in"
    rollNumber := "21B1234"
    branch := "Computer Science and Engineering"
    year := "3rd Year"
    interestedEvents := ["ScaleUp Blitz"]
    phoneNumber := none
    registrationDate := 100
    registrationNumber := some "BW20250001"
    ipAddress := none
    userAgent := none
    status := "confirmed" }

/-- Sample request: a second distinct valid candidate. -/
def bobReq : RawRequest :=
  { name := "Bob"
    ldapId := "bob@iitb.ac.in"
    rollNumber := "22M4567"
    branch := "Physics"
    year := "MTech"
    interestedEvents := ["ScaleUp Ignite"]
    phoneNumber := none }

/-- Sample request: a third distinct valid candidate. -/
def carolReq : RawRequest :=
  { name := "Carol"
    ldapId := "carol@iitb.ac.in"
    rollNumber := "23D8901"
    branch := "Mathematics"
    year := "PhD"
    interestedEvents := ["Both"]
    phoneNumber := none }

/-- Sample request: a fourth valid candidate whose identity collides
with nothing. -/
def daveReq : RawRequest :=
  { name := "Dave"
    ldapId := "dave@iitb.ac.in"
    rollNumber := "24B1111"
    branch := "Economics"
    year := "1st Year"
    interestedEvents := ["Both"]
    phoneNumber := none }

/-- The store after Alice registers into an empty store. -/
def s1 : Store := (register [] aliceReq 2025 100 none none).2

/-- The store after Bob also registers. -/
def s2 : Store := (register s1 bobReq 2025 110 none none).2

/-- The store after Carol also registers. -/
def s3 : Store := (register s2 carolReq 2025 120 none none).2

/-- The store after the first record is deleted again: two records
survive, the larger one numbered BW20250003. -/
def s4 : Store := (deleteRegistration s3 "BW20250001").2

/-- Sample request whose roll number (FOO) violates the spec's
structural pattern while every other field is valid. -/
def fooReq : RawRequest :=
  { name := "Frank"
    ldapId := "frank@iitb.ac.in"
    rollNumber := "FOO"
    branch := "Physics"
    year := "PhD"
    interestedEvents := ["Both"]
    phoneNumber := none }

/-- Sample request with an empty event selection. -/
def emptyEventsReq : RawRequest :=
  { name := "Grace"
    ldapId := "grace@iitb.ac.in"
    rollNumber := "25C2222"
    branch := "Chemistry"
    year := "2nd Year"
    interestedEvents := []
    phoneNumber := none }

/-- A one-record store whose surviving record holds the number the
count-derived generator will produce next (count 1 yields candidate
BW20250002): the state a deletion leaves behind. -/
def gapStore : Store :=
  [{ name := "Eve"
     ldapId := "eve@iitb.ac.in"
     rollNumber := "20C3333"
     branch := "Chemistry"
     year := "Other"
     interestedEvents := ["ScaleUp Blitz"]
     phoneNumber := none
     registrationDate := 40
     registrationNumber := some "BW20250002"
     ipAddress := none
     userAgent := none
     status := "confirmed" }]

/-- Sample request with an identity fresh for `gapStore`. -/
def hollyReq : RawRequest :=
  { name := "Holly"
    ldapId := "holly@iitb.ac.in"
    rollNumber := "26E4444"
    branch := "Earth Sciences"
    year := "4th Year"
    interestedEvents := ["ScaleUp Ignite"]
    phoneNumber := none }

/-- A confirmed record used by the audit-leak stores, first variant of
the hidden origin address. -/
def leakRecA : Registration :=
  { name := "Pat"
    ldapId := "pat@iitb.ac.in"
    rollNumber := "20A1111"
    branch := "Physics"
    year := "PhD"
    interestedEvents := ["Both"]
    phoneNumber := none
    registrationDate := 10
    registrationNumber := some "BW20250001"
    ipAddress := some "10.0.0.1"
    userAgent := none
    status := "confirmed" }

/-- The same record with a different hidden origin address. -/
def leakRecB : Registration :=
  { leakRecA with ipAddress := some "10.0.0.9" }

/-- A second record, identical in both stores. -/
def leakRecC : Registration :=
  { name := "Quinn"
    ldapId := "quinn@iitb.ac.in"
    rollNumber := "20A2222"
    branch := "Chemistry"
    year := "MTech"
    interestedEvents := ["ScaleUp Blitz"]
    phoneNumber := none
    registrationDate := 20
    registrationNumber := some "BW20250002"
    ipAddress := some "10.0.0.5"
    userAgent := none
    status := "confirmed" }

/-- First of two stores that differ only in one record's origin
address. -/
def leakStoreA : Store := [leakRecA, leakRecC]

/-- Second of the two stores. -/
def leakStoreB : Store := [leakRecB, leakRecC]

/-- A list query that sorts by the hidden origin address and pages with
limit one. -/
def leakQuery : ListQuery :=
  { page := 1, limit := 1, event := none, branch := none, year := none,
    sortBy := "ipAddress", ord := "asc" }

/-! Theorems. -/

/-- C1: a register request that passes validation and whose normalized
email or normalized roll number matches an existing record (the model's
$or query, so either field alone suffices) is answered with the
pre-check duplicate response, which has HTTP status 409 and carries the
existing record's registrationNumber and registrationDate, and the
store is unchanged. -/
theorem register_duplicate_precheck (s : Store) (q : RawRequest)
    (year now : Nat) (ip ua : Option String) (e : Registration)
    (hv : validateRegistration q = [])
    (he : checkExistingRegistration s (sanitize q).ldapId
      (sanitize q).rollNumber = some e) :
    register s q year now ip ua =
      (RegisterResult.alreadyRegistered (e.registrationNumber.getD "")
        e.registrationDate, s) ∧
    (register s q year now ip ua).1.httpStatus = 409 := by
  have hreg : register s q year now ip ua =
      (RegisterResult.alreadyRegistered (e.registrationNumber.getD "")
        e.registrationDate, s) := by
    unfold register
    simp [hv, he]
  exact ⟨hreg, by simp [hreg, RegisterResult.httpStatus]⟩

/-- Witness for C1: after Alice registers, a request reusing her email
with a different roll number is answered 409 with her number and
date. -/
theorem register_duplicate_precheck_witness :
    register s1 { aliceReq with rollNumber := "99Z9999" } 2025 200 none
        none =
      (RegisterResult.alreadyRegistered "BW20250001" 100, s1) := by
  have h := register_duplicate_precheck s1
    { aliceReq with rollNumber := "99Z9999" } 2025 200 none none
    aliceStored (by decide) (by decide)
  simpa using h.1

/-- C2: when the collection holds n documents, the pre-save hook
assigns to a document without a number exactly the string BW, then the
year, then n+1 zero-padded to four digits, and it leaves a document
that already has a number completely unchanged. -/
theorem registrationNumber_assignment (s : Store) (year : Nat)
    (r : Registration) :
    (r.registrationNumber = none →
      (preSaveHook s year r).registrationNumber =
        some ("BW" ++ toString year ++
          padStart (toString (s.length + 1)) 4 '0')) ∧
    (∀ x, r.registrationNumber = some x → preSaveHook s year r = r) := by
  constructor
  · intro h
    simp [preSaveHook, h, genRegistrationNumber]
  · intro x h
    simp [preSaveHook, h]

/-- Witness for C2: on the one-document store the hook assigns
BW20250002 to a fresh document and leaves Alice's stored document
untouched. -/
theorem registrationNumber_assignment_witness :
    (preSaveHook s1 2025 (buildRecord bobReq 110 none none)).registrationNumber =
      some ("BW" ++ toString 2025 ++ padStart (toString (s1.length + 1))
        4 '0') ∧
    preSaveHook s1 2025 aliceStored = aliceStored :=
  ⟨(registrationNumber_assignment s1 2025
      (buildRecord bobReq 110 none none)).1 rfl,
   (registrationNumber_assignment s1 2025 aliceStored).2 "BW20250001"
      rfl⟩

/-- C7: a status value outside the three enumerated statuses is
rejected with the invalid-status response (HTTP 400) before the store
is consulted, and the store is returned completely unchanged. -/
theorem updateStatus_invalid_rejected (s : Store) (num status : String)
    (h : (["pending", "confirmed", "cancelled"].contains status) = false) :
    updateRegistrationStatus s num status = (UpdateResult.invalidStatus, s) ∧
    (updateRegistrationStatus s num status).1.httpStatus = 400 := by
  have hu : updateRegistrationStatus s num status =
      (UpdateResult.invalidStatus, s) := by
    unfold updateRegistrationStatus
    rw [h]
    simp
  exact ⟨hu, by simp [hu, UpdateResult.httpStatus]⟩

/-- Witness for C7: updating Alice's registration to the status bogus
is rejected with 400 and the store is unchanged. -/
theorem updateStatus_invalid_rejected_witness :
    updateRegistrationStatus s1 "BW20250001" "bogus" =
      (UpdateResult.invalidStatus, s1) ∧
    (updateRegistrationStatus s1 "BW20250001" "bogus").1.httpStatus =
      400 :=
  updateStatus_invalid_rejected s1 "BW20250001" "bogus" (by decide)

/-- Membership in a conditional singleton message list. -/
theorem mem_ite_cons_nil {c : Prop} [Decidable c] {x m : String} :
    x ∈ (if c then [m] else []) ↔ c ∧ x = m := by
  split <;> rename_i hc <;> simp [hc]

/-- Helper for C3: a duplicate-key response produced by the save path
carries one of the two field messages of the catch block. -/
theorem saveRegistration_dupkey_message (s : Store) (year : Nat)
    (r : Registration) (m : String)
    (h : (saveRegistration s year r).1 = RegisterResult.duplicateKey m) :
    m = "This LDAP ID is already registered" ∨
      m = "This Roll Number is already registered" := by
  unfold saveRegistration at h
  cases hm : (mongooseValidate r).isEmpty with
  | false => simp [hm] at h
  | true =>
      simp only [hm, if_true] at h
      cases hd : dupKeyField s (preSaveHook s year r) with
      | none => rw [hd] at h; simp at h
      | some f =>
          rw [hd] at h
          simp at h
          by_cases hf : f = "ldapId"
          · left; rw [← h]; simp [dupKeyMessage, hf]
          · right; rw [← h]; simp [dupKeyMessage, hf]

/-- C3 (amended): when persisting fails with the store's
uniqueness-violation signal, register responds 409 with one of the two
field-identifying messages of the catch block (email vs roll number),
but that response does not carry the existing record's
registrationNumber or registrationDate. -/
theorem register_dupkey_409_message (s : Store) (q : RawRequest)
    (year now : Nat) (ip ua : Option String) (m : String)
    (h : (register s q year now ip ua).1 = RegisterResult.duplicateKey m) :
    (register s q year now ip ua).1.httpStatus = 409 ∧
    (m = "This LDAP ID is already registered" ∨
      m = "This Roll Number is already registered") ∧
    (register s q year now ip ua).1.carriesExistingRecord = false := by
  refine ⟨by simp [h, RegisterResult.httpStatus], ?_,
    by simp [h, RegisterResult.carriesExistingRecord]⟩
  unfold register at h
  cases hv : (validateRegistration q).isEmpty with
  | false => simp [hv] at h
  | true =>
      simp only [hv, if_true] at h
      cases hc : checkExistingRegistration s (sanitize q).ldapId
          (sanitize q).rollNumber with
      | some e => rw [hc] at h; simp at h
      | none =>
          rw [hc] at h
          exact saveRegistration_dupkey_message s year
            (buildRecord (sanitize q) now ip ua) m h

/-- Counterexample for C3: a register call whose persist fails on the
store's unique registrationNumber index (a state a deletion leaves
behind) is answered 409, but the response carries no existing
registrationNumber or registrationDate, contrary to the claim; the
pre-check found nothing, so the 409 comes from the uniqueness-violation
signal alone. -/
theorem register_dupkey_omits_existing_cex :
    checkExistingRegistration gapStore (sanitize hollyReq).ldapId
        (sanitize hollyReq).rollNumber = none ∧
    (register gapStore hollyReq 2025 50 none none).1 =
      RegisterResult.duplicateKey
        "This Roll Number is already registered" ∧
    (register gapStore hollyReq 2025 50 none none).1.httpStatus = 409 ∧
    ((register gapStore hollyReq 2025 50 none none).1).carriesExistingRecord =
      false := by
  refine ⟨by decide, by decide, by decide, by decide⟩

/-- Witness for C3 (amended): the gap-store register call exercises the
amended theorem. -/
theorem register_dupkey_409_message_witness :
    (register gapStore hollyReq 2025 50 none none).1.httpStatus = 409 ∧
    ("This Roll Number is already registered" =
        "This LDAP ID is already registered" ∨
      "This Roll Number is already registered" =
        "This Roll Number is already registered") ∧
    ((register gapStore hollyReq 2025 50 none none).1).carriesExistingRecord =
      false :=
  register_dupkey_409_message gapStore hollyReq 2025 50 none none
    "This Roll Number is already registered" (by decide)

/-- Counterexample for C5: a request whose roll number FOO violates the
spec's structural pattern passes the route validation with no errors
and is persisted with a 201 response, instead of failing with a 400
validation error. -/
theorem rollNumber_pattern_unenforced_cex :
    rollNumberPatternSpec "FOO" = false ∧
    validateRegistration fooReq = [] ∧
    (register [] fooReq 2025 100 none none).1.httpStatus = 201 ∧
    ((register [] fooReq 2025 100 none none).2.map
      fun r => r.rollNumber) = ["FOO"] := by
  refine ⟨by decide, by decide, by decide, by decide⟩

/-- C5 (amended): the code checks the roll number only for
non-emptiness: neither the route validation chain nor the schema
validation can emit the roll-number message once the (trimmed) roll
number is non-empty, whatever its structure. -/
theorem rollNumber_only_nonempty_checked (q : RawRequest)
    (r : Registration) (hq : trimStr q.rollNumber ≠ "")
    (hr : r.rollNumber ≠ "") :
    "Roll Number is required" ∉ validateRegistration q ∧
    "Roll Number is required" ∉ mongooseValidate r := by
  constructor
  · unfold validateRegistration
    simp [List.mem_append, mem_ite_cons_nil, hq]
  · unfold mongooseValidate
    simp [List.mem_append, mem_ite_cons_nil, hr]
    split_ifs <;> simp

/-- Witness for C5 (amended): the pattern-violating FOO request and
Alice's stored record discharge the hypotheses. -/
theorem rollNumber_only_nonempty_checked_witness :
    "Roll Number is required" ∉ validateRegistration fooReq ∧
    "Roll Number is required" ∉ mongooseValidate aliceStored :=
  rollNumber_only_nonempty_checked fooReq aliceStored (by decide)
    (by decide)

/-- C10: a purely sequential trace - three successful registrations,
then deletion of the first - leaves a store in which a fresh valid
candidate (no email or roll-number match in the pre-check, clean
validation) is still answered 409: the count-derived candidate number
BW20250003 collides with the surviving third record's number, the
persist fails on the unique registrationNumber index, and no record is
created. -/
theorem count_gap_blocks_fresh_registration :
    (register [] aliceReq 2025 100 none none).1.httpStatus = 201 ∧
    (register s1 bobReq 2025 110 none none).1.httpStatus = 201 ∧
    (register s2 carolReq 2025 120 none none).1.httpStatus = 201 ∧
    (deleteRegistration s3 "BW20250001").1 = DeleteResult.deleted ∧
    validateRegistration daveReq = [] ∧
    checkExistingRegistration s4 (sanitize daveReq).ldapId
      (sanitize daveReq).rollNumber = none ∧
    (register s4 daveReq 2025 200 none none).1 =
      RegisterResult.duplicateKey
        "This Roll Number is already registered" ∧
    (register s4 daveReq 2025 200 none none).1.httpStatus = 409 ∧
    (register s4 daveReq 2025 200 none none).2 = s4 := by
  refine ⟨by decide, by decide, by decide, by decide, by decide,
    by decide, by decide, by decide, by decide⟩

/-- The hook on an unnumbered document: assign the count-derived
number. -/
theorem preSaveHook_none {r : Registration}
    (h : r.registrationNumber = none) (s : Store) (year : Nat) :
    preSaveHook s year r =
      { r with registrationNumber := some (genRegistrationNumber s.length year) } := by
  simp [preSaveHook, h]

/-- The hook on a numbered document: no change. -/
theorem preSaveHook_some {r : Registration} {x : String}
    (h : r.registrationNumber = some x) (s : Store) (year : Nat) :
    preSaveHook s year r = r := by
  simp [preSaveHook, h]

/-- The hook touches only the registration number, so schema validation
is unaffected by it. -/
theorem mongooseValidate_preSaveHook (s : Store) (year : Nat)
    (r : Registration) :
    mongooseValidate (preSaveHook s year r) = mongooseValidate r := by
  unfold preSaveHook
  cases r.registrationNumber <;> rfl

/-- A document whose number collides with a stored one is rejected by
some unique index. -/
theorem dupKeyField_some_of_number {t : Store} {r : Registration}
    (h : (t.any fun x => x.registrationNumber == r.registrationNumber) =
      true) :
    ∃ f, dupKeyField t r = some f := by
  unfold dupKeyField
  by_cases h1 : (t.any fun x => x.ldapId == r.ldapId) = true
  · exact ⟨"ldapId", by simp [h1]⟩
  · by_cases h2 : (t.any fun x => x.rollNumber == r.rollNumber) = true
    · exact ⟨"rollNumber", by simp [h1, h2]⟩
    · exact ⟨"registrationNumber", by simp [h1, h2, h]⟩

/-- An accepted insert collides with no stored number. -/
theorem dupKeyField_none_number {t : Store} {r : Registration}
    (h : dupKeyField t r = none) :
    (t.any fun x => x.registrationNumber == r.registrationNumber) =
      false := by
  unfold dupKeyField at h
  split_ifs at h
  simp_all

/-- C4: registration numbers stay pairwise distinct across successful
saves - the store's unique index admits a new document only when its
number differs from every stored one - and in the modelled race, where
a second writer carries a number derived from the same pre-insert
count as a first writer that has meanwhile persisted, the second
persist is rejected with a 409 duplicate-key response and the store is
left unchanged, so two records never hold the same number. -/
theorem registrationNumber_pairwise_unique :
    (∀ (s : Store) (year : Nat) (r : Registration) (d : RegisterSuccess)
        (t : Store),
      (s.map fun x => x.registrationNumber).Nodup →
      saveRegistration s year r = (RegisterResult.created d, t) →
      (t.map fun x => x.registrationNumber).Nodup) ∧
    (∀ (s : Store) (year : Nat) (c1 c2 : Registration)
        (d : RegisterSuccess) (t : Store),
      c1.registrationNumber = none → c2.registrationNumber = none →
      mongooseValidate c2 = [] →
      saveRegistration s year c1 = (RegisterResult.created d, t) →
      (saveRegistration t year (preSaveHook s year c2)).2 = t ∧
      ((saveRegistration t year (preSaveHook s year c2)).1).httpStatus =
        409) := by
  constructor
  · intro s year r d t hnd hsave
    unfold saveRegistration at hsave
    cases hmv : (mongooseValidate r).isEmpty with
    | false => simp [hmv] at hsave
    | true =>
        simp only [hmv, if_true] at hsave
        cases hdk : dupKeyField s (preSaveHook s year r) with
        | some f => rw [hdk] at hsave; simp at hsave
        | none =>
            rw [hdk] at hsave
            simp only [Prod.mk.injEq] at hsave
            obtain ⟨-, hst⟩ := hsave
            subst hst
            have h3 := dupKeyField_none_number hdk
            have hall : ∀ x ∈ s, (x.registrationNumber ==
                (preSaveHook s year r).registrationNumber) = false := by
              intro x hx
              simp only [List.any_eq_false] at h3
              simpa using h3 x hx
            rw [List.map_append]
            simp only [List.map_cons, List.map_nil]
            rw [List.nodup_append]
            refine ⟨hnd, List.nodup_singleton _, ?_⟩
            intro a ha hb
            simp only [List.mem_singleton] at hb
            subst hb
            simp only [List.mem_map] at ha
            obtain ⟨x, hx, hxa⟩ := ha
            have hxf := hall x hx
            rw [hxa] at hxf
            simp at hxf
  · intro s year c1 c2 d t h1 h2 hv2 hsave
    unfold saveRegistration at hsave
    cases hmv : (mongooseValidate c1).isEmpty with
    | false => simp [hmv] at hsave
    | true =>
        simp only [hmv, if_true] at hsave
        cases hdk : dupKeyField s (preSaveHook s year c1) with
        | some f => rw [hdk] at hsave; simp at hsave
        | none =>
            rw [hdk] at hsave
            simp only [Prod.mk.injEq] at hsave
            obtain ⟨-, hst⟩ := hsave
            subst hst
            have hn1 := preSaveHook_none h1 s year
            have hn2 := preSaveHook_none h2 s year
            have hany : ((s ++ [preSaveHook s year c1]).any fun x =>
                x.registrationNumber ==
                  (preSaveHook s year c2).registrationNumber) = true := by
              rw [List.any_append]
              have hone : ([preSaveHook s year c1].any fun x =>
                  x.registrationNumber ==
                    (preSaveHook s year c2).registrationNumber) = true := by
                simp [hn1, hn2]
              rw [hone, Bool.or_true]
            obtain ⟨f, hf⟩ := dupKeyField_some_of_number hany
            have hm2 : mongooseValidate (preSaveHook s year c2) = [] := by
              rw [mongooseValidate_preSaveHook]; exact hv2
            have hkeep : preSaveHook (s ++ [preSaveHook s year c1]) year
                (preSaveHook s year c2) = preSaveHook s year c2 := by
              have hx : (preSaveHook s year c2).registrationNumber =
                  some (genRegistrationNumber s.length year) := by
                rw [hn2]
              exact preSaveHook_some hx _ _
            unfold saveRegistration
            rw [hm2]
            simp only [List.isEmpty_nil, if_true]
            rw [hkeep, hf]
            exact ⟨rfl, rfl⟩

/-- Witness for C4: after Alice's save the store's numbers are
pairwise distinct, and Bob's record, numbered from the same empty-store
count, is rejected at persist time with a 409. -/
theorem registrationNumber_pairwise_unique_witness :
    (([aliceStored].map fun x => x.registrationNumber)).Nodup ∧
    (saveRegistration [aliceStored] 2025
        (preSaveHook [] 2025
          (buildRecord (sanitize bobReq) 110 none none))).2 =
      [aliceStored] ∧
    ((saveRegistration [aliceStored] 2025
        (preSaveHook [] 2025
          (buildRecord (sanitize bobReq) 110 none none))).1).httpStatus =
      409 := by
  refine ⟨?_, ?_⟩
  · exact (registrationNumber_pairwise_unique).1 [] 2025
      (buildRecord (sanitize aliceReq) 100 none none)
      { registrationNumber := "BW20250001", name := "Alice",
        ldapId := "alice@iitb.ac.in", rollNumber := "21B1234",
        events := ["ScaleUp Blitz"], registrationDate := 100 }
      [aliceStored] (by decide) (by decide)
  · exact (registrationNumber_pairwise_unique).2 [] 2025
      (buildRecord (sanitize aliceReq) 100 none none)
      (buildRecord (sanitize bobReq) 110 none none)
      { registrationNumber := "BW20250001", name := "Alice",
        ldapId := "alice@iitb.ac.in", rollNumber := "21B1234",
        events := ["ScaleUp Blitz"], registrationDate := 100 }
      [aliceStored] rfl rfl (by decide) (by decide)

/-- A document that passes schema validation has a non-empty event
list (the array-required validator). -/
theorem events_nonempty_of_valid {r : Registration}
    (h : mongooseValidate r = []) : r.interestedEvents ≠ [] := by
  intro hev
  unfold mongooseValidate at h
  rw [hev] at h
  simp at h

/-- Every register call leaves the store unchanged or appends exactly
one record, and an appended record has a non-empty event list. -/
theorem register_store_shape (s : Store) (q : RawRequest)
    (year now : Nat) (ip ua : Option String) :
    (register s q year now ip ua).2 = s ∨
    ∃ r, (register s q year now ip ua).2 = s ++ [r] ∧
      r.interestedEvents ≠ [] := by
  unfold register
  cases hv : (validateRegistration q).isEmpty with
  | false => left; simp [hv]
  | true =>
      simp only [hv, if_true]
      cases hc : checkExistingRegistration s (sanitize q).ldapId
          (sanitize q).rollNumber with
      | some e => left; rfl
      | none =>
          unfold saveRegistration
          cases hm : mongooseValidate
              (buildRecord (sanitize q) now ip ua) with
          | cons a t => left; simp
          | nil =>
              simp only [List.isEmpty_nil, if_true]
              cases hd : dupKeyField s (preSaveHook s year
                  (buildRecord (sanitize q) now ip ua)) with
              | some f => left; rfl
              | none =>
                  right
                  refine ⟨preSaveHook s year
                    (buildRecord (sanitize q) now ip ua), rfl, ?_⟩
                  have hval : mongooseValidate (preSaveHook s year
                      (buildRecord (sanitize q) now ip ua)) = [] := by
                    rw [mongooseValidate_preSaveHook]; exact hm
                  exact events_nonempty_of_valid hval

/-- A record of an updated store keeps the event list of a record of
the original store when the update function preserves it. -/
theorem mem_updateFirst {p : Registration → Bool}
    {f : Registration → Registration} {s : Store} {r : Registration}
    (h : r ∈ updateFirst p f s)
    (hf : ∀ x, (f x).interestedEvents = x.interestedEvents) :
    ∃ x ∈ s, r.interestedEvents = x.interestedEvents := by
  induction s with
  | nil => simp [updateFirst] at h
  | cons a t ih =>
      unfold updateFirst at h
      cases hp : p a with
      | true =>
          rw [hp] at h
          simp only [if_true] at h
          rcases List.mem_cons.mp h with h1 | h2
          · exact ⟨a, List.mem_cons_self a t, by rw [h1, hf]⟩
          · exact ⟨r, List.mem_cons_of_mem a h2, rfl⟩
      | false =>
          rw [hp] at h
          simp only [Bool.false_eq_true, if_false] at h
          rcases List.mem_cons.mp h with h1 | h2
          · exact ⟨a, List.mem_cons_self a t, by rw [h1]⟩
          · obtain ⟨x, hx, he⟩ := ih h2
            exact ⟨x, List.mem_cons_of_mem a hx, he⟩

/-- Removal only drops records. -/
theorem mem_removeFirst {p : Registration → Bool} {s : Store}
    {r : Registration} (h : r ∈ removeFirst p s) : r ∈ s := by
  induction s with
  | nil => simp [removeFirst] at h
  | cons a t ih =>
      unfold removeFirst at h
      cases hp : p a with
      | true =>
          rw [hp] at h
          simp only [if_true] at h
          exact List.mem_cons_of_mem a h
      | false =>
          rw [hp] at h
          simp only [Bool.false_eq_true, if_false] at h
          rcases List.mem_cons.mp h with h1 | h2
          · exact h1 ▸ List.mem_cons_self a t
          · exact List.mem_cons_of_mem a (ih h2)

/-- A status update leaves the store unchanged or rewrites the first
matching record's status. -/
theorem updateStatus_store_shape (s : Store) (num st : String) :
    (updateRegistrationStatus s num st).2 = s ∨
    (updateRegistrationStatus s num st).2 =
      updateFirst (fun r => r.registrationNumber == some num)
        (fun r => { r with status := st }) s := by
  unfold updateRegistrationStatus
  cases hc : (["pending", "confirmed", "cancelled"].contains st) with
  | false => left; simp [hc]
  | true =>
      simp only [hc, if_true]
      cases hf : s.find? (fun r => r.registrationNumber == some num) with
      | none => left; rfl
      | some r => right; rfl

/-- A delete leaves the store unchanged or removes the first matching
record. -/
theorem delete_store_shape (s : Store) (num : String) :
    (deleteRegistration s num).2 = s ∨
    (deleteRegistration s num).2 =
      removeFirst (fun r => r.registrationNumber == some num) s := by
  unfold deleteRegistration
  cases hf : s.find? (fun r => r.registrationNumber == some num) with
  | none => left; rfl
  | some r => right; rfl

/-- C6: every record of every store reachable through register, status
update and delete has a non-empty interestedEvents list, and a register
request with an empty (or missing) event selection is rejected with the
validation-error response carrying the select-an-event message, leaving
the store unchanged. -/
theorem interestedEvents_never_empty :
    (∀ s, Reachable s → ∀ r ∈ s, r.interestedEvents ≠ []) ∧
    (∀ (s : Store) (q : RawRequest) (year now : Nat)
        (ip ua : Option String),
      q.interestedEvents = [] →
      (register s q year now ip ua).1 =
        RegisterResult.validationFailed (validateRegistration q) ∧
      "Please select at least one event" ∈ validateRegistration q ∧
      (register s q year now ip ua).2 = s) := by
  constructor
  · intro s hs
    induction hs with
    | empty => intro r hr; simp at hr
    | register s' q year now ip ua hprev ih =>
        intro r hr
        rcases register_store_shape s' q year now ip ua with he | ⟨x, he, hx⟩
        · rw [he] at hr; exact ih r hr
        · rw [he] at hr
          rcases List.mem_append.mp hr with h1 | h2
          · exact ih r h1
          · simp only [List.mem_singleton] at h2
            rw [h2]; exact hx
    | update s' num st hprev ih =>
        intro r hr
        rcases updateStatus_store_shape s' num st with he | he
        · rw [he] at hr; exact ih r hr
        · rw [he] at hr
          obtain ⟨x, hx, hev⟩ := mem_updateFirst hr (fun x => rfl)
          rw [hev]; exact ih x hx
    | delete s' num hprev ih =>
        intro r hr
        rcases delete_store_shape s' num with he | he
        · rw [he] at hr; exact ih r hr
        · rw [he] at hr; exact ih r (mem_removeFirst hr)
  · intro s q year now ip ua hev
    have hmem : "Please select at least one event" ∈
        validateRegistration q := by
      have hjoin : String.intercalate "," q.interestedEvents = "" := by
        rw [hev]; decide
      simp [validateRegistration, hjoin]
    have hfalse : (validateRegistration q).isEmpty = false := by
      cases hq : validateRegistration q with
      | nil => rw [hq] at hmem; simp at hmem
      | cons a t => rfl
    refine ⟨?_, hmem, ?_⟩
    · simp [register, hfalse]
    · simp [register, hfalse]

/-- Witness for C6: Alice's reachable one-record store satisfies the
invariant, and the empty-selection request is rejected without
touching the empty store. -/
theorem interestedEvents_never_empty_witness :
    aliceStored.interestedEvents ≠ [] ∧
    "Please select at least one event" ∈
      validateRegistration emptyEventsReq ∧
    (register [] emptyEventsReq 2025 100 none none).2 = [] := by
  refine ⟨?_, ?_, ?_⟩
  · exact (interestedEvents_never_empty).1 s1
      (Reachable.register [] aliceReq 2025 100 none none Reachable.empty)
      aliceStored (by decide)
  · exact ((interestedEvents_never_empty).2 [] emptyEventsReq 2025 100
      none none rfl).2.1
  · exact ((interestedEvents_never_empty).2 [] emptyEventsReq 2025 100
      none none rfl).2.2

/-- Shape of a grouped distribution entry: its key occurs in the
grouped list and its fields are the group count and its percentage. -/
theorem entriesOf_mem {l : List String} {total : Nat} {e : StatEntry}
    (h : e ∈ entriesOf l total) :
    e.key ∈ l ∧ e.count = l.count e.key ∧
      e.percentage = pctOf (l.count e.key) total := by
  unfold entriesOf at h
  simp only [List.mem_map] at h
  obtain ⟨k, hk, he⟩ := h
  cases he
  exact ⟨List.mem_dedup.mp hk, rfl, rfl⟩

/-- With a positive total the percentage is the rounded ratio, never a
division by zero. -/
theorem pctOf_pos {c total : Nat} (h : total ≠ 0) :
    pctOf c total = some (round2 ((c : ℚ) / (total : ℚ) * 100)) := by
  simp [pctOf, h]

/-- An unwound event occurrence witnesses a confirmed record. -/
theorem confirmed_pos_of_event {s : Store} {k : String}
    (h : k ∈ eventOccurrences s) : 0 < (confirmedOnly s).length := by
  unfold eventOccurrences at h
  obtain ⟨r, hr, -⟩ := List.mem_flatMap.mp h
  exact List.length_pos.mpr (List.ne_nil_of_mem hr)

/-- A grouped key of a confirmed-record projection witnesses a
confirmed record. -/
theorem confirmed_pos_of_proj {s : Store} {f : Registration → String}
    {k : String} (h : k ∈ (confirmedOnly s).map f) :
    0 < (confirmedOnly s).length := by
  obtain ⟨r, hr, -⟩ := List.mem_map.mp h
  exact List.length_pos.mpr (List.ne_nil_of_mem hr)

/-- C8: every percentage field of the statistics response equals the
two-decimal rounding of count / total * 100 whenever the confirmed
total is positive, the guarded both-events percentage is the plain
value 0 when the total is zero, and no emitted percentage is the
non-finite value of a division by zero (`none`): every distribution
entry exists only when the total is positive. -/
theorem stats_percentages_safe (s : Store) (now : Nat) :
    ((getStats s now).totalRegistrations = 0 →
      (getStats s now).bothEventsPercentage = some 0) ∧
    (0 < (getStats s now).totalRegistrations →
      (getStats s now).bothEventsPercentage =
        some (round2 ((bothEventsCount s : ℚ) /
          (((getStats s now).totalRegistrations : ℚ)) * 100))) ∧
    (∀ e ∈ (getStats s now).events, e.percentage =
      some (round2 ((e.count : ℚ) /
        (((getStats s now).totalRegistrations : ℚ)) * 100))) ∧
    (∀ e ∈ (getStats s now).branchesDist, e.percentage =
      some (round2 ((e.count : ℚ) /
        (((getStats s now).totalRegistrations : ℚ)) * 100))) ∧
    (∀ e ∈ (getStats s now).yearsDist, e.percentage =
      some (round2 ((e.count : ℚ) /
        (((getStats s now).totalRegistrations : ℚ)) * 100))) := by
  have hT : (getStats s now).totalRegistrations =
      (confirmedOnly s).length := rfl
  have hboth : (getStats s now).bothEventsPercentage =
      if 0 < (confirmedOnly s).length then
        some (round2 ((bothEventsCount s : ℚ) /
          (((confirmedOnly s).length : ℚ)) * 100))
      else some 0 := rfl
  refine ⟨?_, ?_, ?_, ?_, ?_⟩
  · intro h0
    rw [hT] at h0
    rw [hboth, if_neg (by omega)]
  · intro hpos
    rw [hT] at hpos
    rw [hboth, if_pos hpos, hT]
  · intro e he
    have hev : (getStats s now).events =
        entriesOf (eventOccurrences s) ((confirmedOnly s).length) := rfl
    rw [hev] at he
    obtain ⟨hk, hc, hp⟩ := entriesOf_mem he
    have hpos := confirmed_pos_of_event hk
    rw [hp, pctOf_pos (by omega), ← hc, hT]
  · intro e he
    have hbr : (getStats s now).branchesDist =
        entriesOf ((confirmedOnly s).map fun r => r.branch)
          ((confirmedOnly s).length) := rfl
    rw [hbr] at he
    obtain ⟨hk, hc, hp⟩ := entriesOf_mem he
    have hpos := confirmed_pos_of_proj hk
    rw [hp, pctOf_pos (by omega), ← hc, hT]
  · intro e he
    have hyr : (getStats s now).yearsDist =
        entriesOf ((confirmedOnly s).map fun r => r.year)
          ((confirmedOnly s).length) := rfl
    rw [hyr] at he
    obtain ⟨hk, hc, hp⟩ := entriesOf_mem he
    have hpos := confirmed_pos_of_proj hk
    rw [hp, pctOf_pos (by omega), ← hc, hT]

/-- Witness for C8: the empty store yields the guarded 0, and the
one-record confirmed store yields rounded ratios for the both-events
percentage and the Blitz event entry. -/
theorem stats_percentages_safe_witness :
    (getStats [] 0).bothEventsPercentage = some 0 ∧
    (getStats s1 0).bothEventsPercentage =
      some (round2 ((bothEventsCount s1 : ℚ) /
        (((getStats s1 0).totalRegistrations : ℚ)) * 100)) ∧
    (⟨"ScaleUp Blitz", 1, pctOf 1 1⟩ : StatEntry).percentage =
      some (round2
        (((⟨"ScaleUp Blitz", 1, pctOf 1 1⟩ : StatEntry).count : ℚ) /
          (((getStats s1 0).totalRegistrations : ℚ)) * 100)) :=
  ⟨(stats_percentages_safe [] 0).1 (by decide),
   (stats_percentages_safe s1 0).2.1 (by decide),
   (stats_percentages_safe s1 0).2.2.1 ⟨"ScaleUp Blitz", 1, pctOf 1 1⟩
     (by exact List.mem_cons_self _ _)⟩

/-- Scrubbing is idempotent. -/
theorem scrub_scrub (r : Registration) : scrub (scrub r) = scrub r := rfl

/-- A predicate that ignores the audit fields searches the scrubbed
collection as it searches the original. -/
theorem find?_map_scrub (p : Registration → Bool)
    (hp : ∀ r, p (scrub r) = p r) (s : Store) :
    (s.map scrub).find? p = (s.find? p).map scrub := by
  induction s with
  | nil => rfl
  | cons a t ih =>
      cases hpa : p a with
      | true =>
          rw [List.map_cons,
            List.find?_cons_of_pos _ (by rw [hp a]; exact hpa),
            List.find?_cons_of_pos _ hpa]
          rfl
      | false =>
          rw [List.map_cons,
            List.find?_cons_of_neg _ (by rw [hp a]; simp [hpa]),
            List.find?_cons_of_neg _ (by simp [hpa])]
          exact ih

/-- Filtering by an audit-blind predicate commutes with scrubbing. -/
theorem filter_map_scrub (p : Registration → Bool)
    (hp : ∀ r, p (scrub r) = p r) (s : Store) :
    (s.map scrub).filter p = (s.filter p).map scrub := by
  induction s with
  | nil => rfl
  | cons a t ih =>
      simp only [List.map_cons, List.filter_cons, hp a]
      cases p a <;> simp [ih]

/-- Counting by an audit-blind predicate ignores scrubbing. -/
theorem countP_map_scrub (p : Registration → Bool)
    (hp : ∀ r, p (scrub r) = p r) (s : Store) :
    (s.map scrub).countP p = s.countP p := by
  induction s with
  | nil => rfl
  | cons a t ih =>
      simp only [List.map_cons, List.countP_cons, hp a, ih]

/-- An audit-blind existence test ignores scrubbing. -/
theorem any_map_scrub (p : Registration → Bool)
    (hp : ∀ r, p (scrub r) = p r) (s : Store) :
    (s.map scrub).any p = s.any p := by
  induction s with
  | nil => rfl
  | cons a t ih =>
      simp only [List.map_cons, List.any_cons, hp a, ih]

/-- Sorted insertion under an audit-blind comparison commutes with
scrubbing. -/
theorem insertSorted_map_scrub (le : Registration → Registration → Bool)
    (hle : ∀ a b, le (scrub a) (scrub b) = le a b) (a : Registration)
    (l : Store) :
    insertSorted le (scrub a) (l.map scrub) =
      (insertSorted le a l).map scrub := by
  induction l with
  | nil => rfl
  | cons b t ih =>
      simp only [List.map_cons, insertSorted, hle a b]
      cases le a b <;> simp [ih]

/-- Sorting under an audit-blind comparison commutes with scrubbing. -/
theorem sortStore_map_scrub (le : Registration → Registration → Bool)
    (hle : ∀ a b, le (scrub a) (scrub b) = le a b) (l : Store) :
    sortStore le (l.map scrub) = (sortStore le l).map scrub := by
  induction l with
  | nil => rfl
  | cons a t ih =>
      simp only [sortStore, List.map_cons, List.foldr_cons] at ih ⊢
      rw [ih, insertSorted_map_scrub le hle]

/-- The confirmed slice of the scrubbed store is the scrubbed confirmed
slice. -/
theorem confirmedOnly_scrub (s : Store) :
    confirmedOnly (s.map scrub) = (confirmedOnly s).map scrub :=
  filter_map_scrub (fun r => r.status == "confirmed") (fun _ => rfl) s

/-- Unwound event occurrences ignore scrubbing. -/
theorem eventOccurrences_scrub (s : Store) :
    eventOccurrences (s.map scrub) = eventOccurrences s := by
  unfold eventOccurrences
  rw [confirmedOnly_scrub]
  induction confirmedOnly s with
  | nil => rfl
  | cons a t ih =>
      simp only [List.map_cons, List.flatMap_cons, ih]
      rfl

/-- The both-events count ignores scrubbing. -/
theorem bothEventsCount_scrub (s : Store) :
    bothEventsCount (s.map scrub) = bothEventsCount s := by
  unfold bothEventsCount
  rw [confirmedOnly_scrub]
  exact countP_map_scrub (fun r => r.interestedEvents.contains "Both")
    (fun _ => rfl) (confirmedOnly s)

/-- The duplicate pre-check searches the scrubbed store as it searches
the original. -/
theorem checkExistingRegistration_scrub (s : Store) (a b : String) :
    checkExistingRegistration (s.map scrub) a b =
      (checkExistingRegistration s a b).map scrub := by
  unfold checkExistingRegistration
  exact find?_map_scrub
    (fun r => r.ldapId == toLowerStr a || r.rollNumber == toUpperStr b)
    (fun _ => rfl) s

/-- The unique-index check ignores the audit fields of the store. -/
theorem dupKeyField_map_scrub (s : Store) (r : Registration) :
    dupKeyField (s.map scrub) r = dupKeyField s r := by
  unfold dupKeyField
  rw [any_map_scrub (fun x => x.ldapId == r.ldapId) (fun _ => rfl) s,
    any_map_scrub (fun x => x.rollNumber == r.rollNumber)
      (fun _ => rfl) s,
    any_map_scrub (fun x => x.registrationNumber == r.registrationNumber)
      (fun _ => rfl) s]

/-- The status check routes identically on the scrubbed store and
returns the same summary. -/
theorem checkRegistration_scrub (s : Store) (i : String) :
    checkRegistration (s.map scrub) i = checkRegistration s i := by
  unfold checkRegistration
  by_cases hi : i = ""
  · simp [hi]
  · simp only [hi, if_false]
    cases hc : containsChar i '@' with
    | true =>
        simp only [hc, if_true]
        rw [find?_map_scrub (fun r => r.ldapId == toLowerStr i)
          (fun _ => rfl) s]
        cases s.find? (fun r => r.ldapId == toLowerStr i) <;> rfl
    | false =>
        simp only [hc, Bool.false_eq_true, if_false]
        rw [find?_map_scrub (fun r => r.rollNumber == toUpperStr i)
          (fun _ => rfl) s]
        cases s.find? (fun r => r.rollNumber == toUpperStr i) <;> rfl

/-- The by-number lookup is unaffected by scrubbing. -/
theorem getRegistrationByNumber_scrub (s : Store) (num : String) :
    getRegistrationByNumber (s.map scrub) num =
      getRegistrationByNumber s num := by
  unfold getRegistrationByNumber
  rw [find?_map_scrub (fun r => r.registrationNumber == some num)
    (fun _ => rfl) s]
  cases s.find? (fun r => r.registrationNumber == some num) <;> rfl

/-- The dynamic sort key ignores scrubbing whenever it does not name an
audit field. -/
theorem getSortValue_scrub (r : Registration) (field : String)
    (h1 : field ≠ "ipAddress") (h2 : field ≠ "userAgent") :
    getSortValue (scrub r) field = getSortValue r field := by
  unfold getSortValue
  split_ifs <;> rfl

/-- The list comparison ignores scrubbing for a non-audit sort key. -/
theorem listSortLe_scrub (sortBy ord : String) (a b : Registration)
    (h1 : sortBy ≠ "ipAddress") (h2 : sortBy ≠ "userAgent") :
    listSortLe sortBy ord (scrub a) (scrub b) =
      listSortLe sortBy ord a b := by
  unfold listSortLe
  rw [getSortValue_scrub a sortBy h1 h2, getSortValue_scrub b sortBy h1 h2]

/-- The list endpoint answers identically on the scrubbed store when
the sort key is not an audit field. -/
theorem getAllRegistrations_scrub (s : Store) (q : ListQuery)
    (h1 : q.sortBy ≠ "ipAddress") (h2 : q.sortBy ≠ "userAgent") :
    getAllRegistrations (s.map scrub) q = getAllRegistrations s q := by
  simp only [getAllRegistrations]
  rw [filter_map_scrub (matchesListQuery q) (fun _ => rfl) s,
    sortStore_map_scrub (listSortLe q.sortBy q.ord)
      (fun a b => listSortLe_scrub q.sortBy q.ord a b h1 h2)
      (s.filter (matchesListQuery q)),
    List.length_map, ← List.map_drop, ← List.map_take, List.map_map]
  rfl

/-- The export answers identically on the scrubbed store. -/
theorem exportRegistrations_scrub (s : Store) :
    exportRegistrations (s.map scrub) = exportRegistrations s := by
  simp only [exportRegistrations]
  rw [sortStore_map_scrub
    (fun a b => decide (b.registrationDate ≤ a.registrationDate))
    (fun _ _ => rfl) s]
  have hmap : List.map exportRow
      ((sortStore (fun a b =>
        decide (b.registrationDate ≤ a.registrationDate)) s).map scrub) =
    List.map exportRow
      (sortStore (fun a b =>
        decide (b.registrationDate ≤ a.registrationDate)) s) := by
    rw [List.map_map]
    apply List.map_congr_left
    intro r hr
    rfl
  rw [hmap]

/-- The statistics aggregation answers identically on the scrubbed
store. -/
theorem getStats_scrub (s : Store) (now : Nat) :
    getStats (s.map scrub) now = getStats s now := by
  simp only [getStats]
  rw [confirmedOnly_scrub, eventOccurrences_scrub, bothEventsCount_scrub,
    List.length_map,
    filter_map_scrub
      (fun r => decide (now - 7 * 86400 ≤ r.registrationDate))
      (fun _ => rfl) (confirmedOnly s),
    sortStore_map_scrub
      (fun a b => decide (b.registrationDate ≤ a.registrationDate))
      (fun _ _ => rfl) (confirmedOnly s),
    ← List.map_take]
  simp only [List.map_map]
  rfl

/-- The live counts answer identically on the scrubbed store. -/
theorem getLiveCount_scrub (s : Store) :
    getLiveCount (s.map scrub) = getLiveCount s := by
  unfold getLiveCount
  rw [confirmedOnly_scrub, eventOccurrences_scrub, List.length_map]

/-- The per-event statistics answer identically on the scrubbed
store. -/
theorem getEventStats_scrub (s : Store) (en : String) :
    getEventStats (s.map scrub) en = getEventStats s en := by
  simp only [getEventStats]
  rw [confirmedOnly_scrub,
    filter_map_scrub (fun r => r.interestedEvents.contains en)
      (fun _ => rfl) (confirmedOnly s),
    List.length_map]
  simp only [List.map_map]
  rfl

/-- Register produces the same response on the scrubbed store with any
audit metadata, and the resulting stores agree after scrubbing. -/
theorem register_scrub (s : Store) (q : RawRequest) (year now : Nat)
    (ip ua ip2 ua2 : Option String) :
    (register (s.map scrub) q year now ip2 ua2).1 =
      (register s q year now ip ua).1 ∧
    ((register (s.map scrub) q year now ip2 ua2).2).map scrub =
      ((register s q year now ip ua).2).map scrub := by
  simp only [register]
  cases hv : (validateRegistration q).isEmpty with
  | false =>
      exact ⟨rfl, by simp [List.map_map, Function.comp, scrub_scrub]⟩
  | true =>
      simp only [if_true]
      rw [checkExistingRegistration_scrub]
      cases hc : checkExistingRegistration s (sanitize q).ldapId
          (sanitize q).rollNumber with
      | some e =>
          exact ⟨rfl, by simp [List.map_map, Function.comp, scrub_scrub]⟩
      | none =>
          simp only [Option.map_none', saveRegistration]
          have hmv : mongooseValidate
              (buildRecord (sanitize q) now ip2 ua2) =
            mongooseValidate (buildRecord (sanitize q) now ip ua) := rfl
          rw [hmv]
          cases hm : (mongooseValidate
              (buildRecord (sanitize q) now ip ua)).isEmpty with
          | false =>
              exact ⟨rfl,
                by simp [List.map_map, Function.comp, scrub_scrub]⟩
          | true =>
              simp only [if_true]
              rw [preSaveHook_none rfl (s.map scrub) year,
                preSaveHook_none rfl s year, List.length_map]
              rw [dupKeyField_map_scrub]
              have hdd : dupKeyField s
                  { buildRecord (sanitize q) now ip2 ua2 with
                    registrationNumber :=
                      some (genRegistrationNumber s.length year) } =
                dupKeyField s
                  { buildRecord (sanitize q) now ip ua with
                    registrationNumber :=
                      some (genRegistrationNumber s.length year) } := rfl
              rw [hdd]
              cases dupKeyField s
                  { buildRecord (sanitize q) now ip ua with
                    registrationNumber :=
                      some (genRegistrationNumber s.length year) } with
              | some f =>
                  exact ⟨rfl,
                    by simp [List.map_map, Function.comp, scrub_scrub]⟩
              | none =>
                  refine ⟨rfl, ?_⟩
                  rw [List.map_append, List.map_append, List.map_map]
                  simp only [List.map_cons, List.map_nil]
                  rfl

/-- C9 (amended): no read response carries the audit fields - every
record a read operation returns is scrubbed - and every read operation
(status check, by-number lookup, export, statistics, live count,
per-event statistics, and register's response for any supplied audit
metadata) answers identically on two stores that differ only in audit
fields; the list endpoint does so whenever its dynamic sort key is not
one of the two audit fields themselves. -/
theorem read_responses_audit_free (s t : Store) (h : AuditEquiv s t)
    (i num : String) (q : ListQuery) (now : Nat) (en : String)
    (qr : RawRequest) (year now2 : Nat) (ip ua ip2 ua2 : Option String)
    (hs1 : q.sortBy ≠ "ipAddress") (hs2 : q.sortBy ≠ "userAgent") :
    checkRegistration s i = checkRegistration t i ∧
    getRegistrationByNumber s num = getRegistrationByNumber t num ∧
    getAllRegistrations s q = getAllRegistrations t q ∧
    exportRegistrations s = exportRegistrations t ∧
    getStats s now = getStats t now ∧
    getLiveCount s = getLiveCount t ∧
    getEventStats s en = getEventStats t en ∧
    (register s qr year now2 ip ua).1 =
      (register t qr year now2 ip2 ua2).1 ∧
    (∀ r ∈ (getAllRegistrations s q).data,
      r.ipAddress = none ∧ r.userAgent = none) ∧
    (∀ r, getRegistrationByNumber s num = some r →
      r.ipAddress = none ∧ r.userAgent = none) := by
  have h' : s.map scrub = t.map scrub := h
  refine ⟨?_, ?_, ?_, ?_, ?_, ?_, ?_, ?_, ?_, ?_⟩
  · rw [← checkRegistration_scrub s i, h', checkRegistration_scrub]
  · rw [← getRegistrationByNumber_scrub s num, h',
      getRegistrationByNumber_scrub]
  · rw [← getAllRegistrations_scrub s q hs1 hs2, h',
      getAllRegistrations_scrub t q hs1 hs2]
  · rw [← exportRegistrations_scrub s, h', exportRegistrations_scrub]
  · rw [← getStats_scrub s now, h', getStats_scrub]
  · rw [← getLiveCount_scrub s, h', getLiveCount_scrub]
  · rw [← getEventStats_scrub s en, h', getEventStats_scrub]
  · rw [← (register_scrub s qr year now2 ip ua ip2 ua2).1, h',
      (register_scrub t qr year now2 ip2 ua2 ip2 ua2).1]
  · intro r hr
    have hdata : (getAllRegistrations s q).data =
        (((sortStore (listSortLe q.sortBy q.ord)
          (s.filter (matchesListQuery q))).drop
            ((q.page - 1) * q.limit)).take q.limit).map scrub := rfl
    rw [hdata] at hr
    obtain ⟨x, -, hx⟩ := List.mem_map.mp hr
    rw [← hx]
    exact ⟨rfl, rfl⟩
  · intro r hr
    unfold getRegistrationByNumber at hr
    obtain ⟨x, -, hx⟩ := Option.map_eq_some'.mp hr
    rw [← hx]
    exact ⟨rfl, rfl⟩

/-- Counterexample for C9: two stores that differ only in one record's
hidden origin address, queried through the list endpoint with the sort
key ipAddress and page size one, return different records: the
pagination order leaks the hidden value, so not every read operation is
identical on audit-equivalent stores. -/
theorem audit_sort_order_leak_cex :
    AuditEquiv leakStoreA leakStoreB ∧
    getAllRegistrations leakStoreA leakQuery ≠
      getAllRegistrations leakStoreB leakQuery := by
  constructor
  · show leakStoreA.map scrub = leakStoreB.map scrub
    decide
  · decide

/-- Witness for C9 (amended): the two leak stores with a
registration-date sort give identical list pages, and all the other
read operations agree as well. -/
theorem read_responses_audit_free_witness :
    checkRegistration leakStoreA "pat@iitb.ac.in" =
      checkRegistration leakStoreB "pat@iitb.ac.in" ∧
    getRegistrationByNumber leakStoreA "BW20250001" =
      getRegistrationByNumber leakStoreB "BW20250001" ∧
    getAllRegistrations leakStoreA { sortBy := "registrationDate" } =
      getAllRegistrations leakStoreB { sortBy := "registrationDate" } ∧
    exportRegistrations leakStoreA = exportRegistrations leakStoreB ∧
    getStats leakStoreA 30 = getStats leakStoreB 30 ∧
    getLiveCount leakStoreA = getLiveCount leakStoreB ∧
    getEventStats leakStoreA "Both" = getEventStats leakStoreB "Both" ∧
    (register leakStoreA daveReq 2025 40 (some "1.2.3.4") (some "agent")).1 =
      (register leakStoreB daveReq 2025 40 none none).1 := by
  have h := read_responses_audit_free leakStoreA leakStoreB
    (by exact (by decide : leakStoreA.map scrub = leakStoreB.map scrub))
    "pat@iitb.ac.in" "BW20250001" { sortBy := "registrationDate" } 30
    "Both" daveReq 2025 40 (some "1.2.3.4") (some "agent") none none
    (by decide) (by decide)
  exact ⟨h.1, h.2.1, h.2.2.1, h.2.2.2.1, h.2.2.2.2.1, h.2.2.2.2.2.1,
    h.2.2.2.2.2.2.1, h.2.2.2.2.2.2.2.1⟩

end Blitzweek
